import Mathlib

/-!
Verification of the texturegl demo (src/src/main.c) against its
natural-language specification.

The program is a single-file OpenGL demo.  The matrix arithmetic it
performs each frame comes from the header-only cglm library, whose code is
compiled into the program: `glm_ortho`, `glm_ortho_default`,
`glm_mat4_mul` and `glm_translate` are embedded below exactly as cglm
defines them.  cglm stores matrices column-major: `M c r` below is the C
expression `m[c][r]`, column `c`, row `r`.  C `float`/`double` arithmetic
is modelled over an arbitrary linearly ordered field (instantiated at `ℝ`
in the theorems and at `ℚ` in witnesses), so algebraic identities are
exact.

The control-flow of `main` and `get_texture` (error handling, buffer
uploads, the render loop, the exit code) is embedded as pure functions
over an environment of success/failure outcomes of the external calls.
-/

/-- 4×4 matrix in cglm's column-major storage: `M c r = m[c][r]`. -/
abbrev mat4 (K : Type) : Type := Matrix (Fin 4) (Fin 4) K

/-- The mathematical matrix denoted by a column-major cglm matrix:
entry (row, col) of the math matrix is `m[col][row]`, i.e. the transpose
of the storage. -/
def toMath {K : Type} (M : mat4 K) : Matrix (Fin 4) (Fin 4) K :=
  Matrix.transpose M

/-- `GLM_MAT4_IDENTITY_INIT` (main.c line 298): the 4×4 identity. -/
def mat4_identity {K : Type} [Zero K] [One K] : mat4 K :=
  Matrix.of fun c r => if c = r then 1 else 0

/-- cglm `glm_translate(m, v)` (main.c line 300): adds
`m[0]*v[0] + m[1]*v[1] + m[2]*v[2]` to column 3 of `m`
(three `glm_vec4_muladds` calls), leaving the other columns unchanged. -/
def glm_translate {K : Type} [Field K] (m : mat4 K) (v : Fin 3 → K) : mat4 K :=
  Matrix.of fun c r =>
    if c = 3 then m 3 r + m 0 r * v 0 + m 1 r * v 1 + m 2 r * v 2 else m c r

/-- cglm `glm_ortho(left, right, bottom, top, nearZ, farZ, dest)`:
zeroes `dest` and assigns the seven entries of the orthographic
projection, with `rl = 1/(right-left)`, `tb = 1/(top-bottom)`,
`fn = -1/(farZ-nearZ)`. -/
def glm_ortho {K : Type} [Field K]
    (left right bottom top nearZ farZ : K) : mat4 K :=
  Matrix.of fun c r =>
    if c = 0 ∧ r = 0 then 2 * (1 / (right - left))
    else if c = 1 ∧ r = 1 then 2 * (1 / (top - bottom))
    else if c = 2 ∧ r = 2 then 2 * (-1 / (farZ - nearZ))
    else if c = 3 ∧ r = 0 then -(right + left) * (1 / (right - left))
    else if c = 3 ∧ r = 1 then -(top + bottom) * (1 / (top - bottom))
    else if c = 3 ∧ r = 2 then (farZ + nearZ) * (-1 / (farZ - nearZ))
    else if c = 3 ∧ r = 3 then 1
    else 0

/-- cglm `glm_ortho_default(aspect, dest)` (main.c line 302): for
`aspect >= 1` it is `glm_ortho(-aspect, aspect, -1, 1, -100, 100)`;
otherwise it is `glm_ortho(-1, 1, -1/aspect, 1/aspect, -100, 100)`. -/
def glm_ortho_default {K : Type} [LinearOrderedField K] (aspect : K) : mat4 K :=
  if 1 ≤ aspect then glm_ortho (-aspect) aspect (-1) 1 (-100) 100
  else glm_ortho (-1) 1 (-(1 / aspect)) (1 / aspect) (-100) 100

/-- cglm `glm_mat4_mul(m1, m2, dest)` (main.c line 303):
`dest[c][r] = m1[0][r]*m2[c][0] + m1[1][r]*m2[c][1] + m1[2][r]*m2[c][2]
 + m1[3][r]*m2[c][3]`, cglm's unrolled column-major product. -/
def glm_mat4_mul {K : Type} [Field K] (m1 m2 : mat4 K) : mat4 K :=
  Matrix.of fun c r =>
    m1 0 r * m2 c 0 + m1 1 r * m2 c 1 + m1 2 r * m2 c 2 + m1 3 r * m2 c 3

/-- The translation matrix built in a render-loop iteration
(main.c lines 298-300): `m = GLM_MAT4_IDENTITY_INIT;
glm_translate(m, (vec3){0, cos(t), 0})`, with `y` standing for `cos(t)`. -/
def frameTranslation {K : Type} [Field K] (y : K) : mat4 K :=
  glm_translate mat4_identity ![0, y, 0]

/-- The projection built in a render-loop iteration (main.c line 302):
`glm_ortho_default(width / (float) height, p)`, with `a` standing for the
aspect ratio `width / height`. -/
def frameProjection {K : Type} [LinearOrderedField K] (a : K) : mat4 K :=
  glm_ortho_default a

/-- The matrix uploaded to the shader's `MVP` uniform each iteration
(main.c lines 303-306): `glm_mat4_mul(p, m, mvp)` of the frame's
projection and translation, passed to `glUniformMatrix4fv`. -/
def frameMVP {K : Type} [LinearOrderedField K] (a y : K) : mat4 K :=
  glm_mat4_mul (frameProjection a) (frameTranslation y)

/-- The identity matrix translated by the vector `(x, y, z)` (column 3
holds the offset), stated from the spec's words for comparison with the
matrix the code builds. -/
def translationMatrix {K : Type} [Zero K] [One K] (x y z : K) : mat4 K :=
  Matrix.of fun c r =>
    if c = r then 1
    else if c = 3 ∧ r = 0 then x
    else if c = 3 ∧ r = 1 then y
    else if c = 3 ∧ r = 2 then z
    else 0

/-- The spec's reading of the per-frame orthographic projection: it is
symmetric about the origin, mapping `[-a, a]` horizontally and `[-1, 1]`
vertically onto clip space `[-1, 1]`.  In column-major storage the clip
x-coordinate of a point `(x, y, z, 1)` is `M 0 0 * x + M 3 0` and the
clip y-coordinate is `M 1 1 * y + M 3 1`. -/
def orthoMapsSpec {K : Type} [Field K] (a : K) (M : mat4 K) : Prop :=
  M 0 0 * a + M 3 0 = 1 ∧ M 0 0 * (-a) + M 3 0 = -1 ∧
  M 1 1 * 1 + M 3 1 = 1 ∧ M 1 1 * (-1) + M 3 1 = -1

lemma frameTranslation_eq {K : Type} [Field K] (y : K) :
    frameTranslation y = translationMatrix 0 y 0 := by
  ext c r
  fin_cases c <;> fin_cases r <;>
    simp [frameTranslation, glm_translate, mat4_identity, translationMatrix,
      Matrix.of_apply]

lemma toMath_glm_mat4_mul {K : Type} [Field K] (p m : mat4 K) :
    toMath (glm_mat4_mul p m) = toMath p * toMath m := by
  ext r c
  simp [toMath, glm_mat4_mul, Matrix.mul_apply, Fin.sum_univ_four,
    Matrix.transpose_apply, Matrix.of_apply]

/-- C1: for every elapsed time `t`, the translation matrix built in a
render-loop iteration (lines 298-300) is the identity translated by the
vector `(0, cos t, 0)`: its offset column is `cos t` on the vertical axis
and `0` on the horizontal and depth axes. -/
theorem frameTranslation_is_cos_offset (t : ℝ) :
    frameTranslation (Real.cos t) = translationMatrix 0 (Real.cos t) 0 ∧
    frameTranslation (Real.cos t) 3 0 = 0 ∧
    frameTranslation (Real.cos t) 3 1 = Real.cos t ∧
    frameTranslation (Real.cos t) 3 2 = 0 := by
  refine ⟨frameTranslation_eq _, ?_, ?_, ?_⟩ <;>
    simp [frameTranslation_eq, translationMatrix, Matrix.of_apply]

/-- C2: in every render-loop iteration, the transform uploaded to the
shader's `MVP` uniform (lines 303-306) denotes the matrix product
projection × translation, projection as the left factor. -/
theorem frameMVP_is_projection_mul_translation (w h t : ℝ) :
    toMath (frameMVP (w / h) (Real.cos t)) =
      toMath (frameProjection (w / h)) * toMath (frameTranslation (Real.cos t)) :=
  toMath_glm_mat4_mul _ _

lemma glm_ortho_e00 {K : Type} [Field K] (l r b t n f : K) :
    glm_ortho l r b t n f 0 0 = 2 * (1 / (r - l)) := by
  simp [glm_ortho, Matrix.of_apply]

lemma glm_ortho_e11 {K : Type} [Field K] (l r b t n f : K) :
    glm_ortho l r b t n f 1 1 = 2 * (1 / (t - b)) := by
  simp [glm_ortho, Matrix.of_apply]

lemma glm_ortho_e30 {K : Type} [Field K] (l r b t n f : K) :
    glm_ortho l r b t n f 3 0 = -(r + l) * (1 / (r - l)) := by
  simp [glm_ortho, Matrix.of_apply]

lemma glm_ortho_e31 {K : Type} [Field K] (l r b t n f : K) :
    glm_ortho l r b t n f 3 1 = -(t + b) * (1 / (t - b)) := by
  simp [glm_ortho, Matrix.of_apply]

lemma orthoMapsSpec_of_one_le {K : Type} [LinearOrderedField K]
    (a : K) (ha : 1 ≤ a) : orthoMapsSpec a (glm_ortho_default a) := by
  have ha0 : (0 : K) < a := lt_of_lt_of_le one_pos ha
  have hne : a ≠ 0 := ne_of_gt ha0
  rw [orthoMapsSpec, glm_ortho_default, if_pos ha]
  refine ⟨?_, ?_, ?_, ?_⟩
  · rw [glm_ortho_e00, glm_ortho_e30]; field_simp; ring
  · rw [glm_ortho_e00, glm_ortho_e30]; field_simp; ring
  · rw [glm_ortho_e11, glm_ortho_e31]; norm_num
  · rw [glm_ortho_e11, glm_ortho_e31]; norm_num

/-- C3 counterexample: at framebuffer width 1 and height 2 (aspect
`a = 1/2`, nonzero height), the projection the code computes does not map
`[-a, a]` horizontally and `[-1, 1]` vertically onto clip space:
`glm_ortho_default` takes its `aspect < 1` branch and produces
`glm_ortho(-1, 1, -2, 2, -100, 100)` instead. -/
theorem frameProjection_not_ortho_spec_of_portrait :
    ¬ orthoMapsSpec ((1 : ℚ) / (2 : ℚ)) (frameProjection ((1 : ℚ) / (2 : ℚ))) := by
  have hbr : frameProjection ((1 : ℚ) / (2 : ℚ))
      = glm_ortho (-1) 1 (-(1 / ((1 : ℚ) / (2 : ℚ)))) (1 / ((1 : ℚ) / (2 : ℚ)))
          (-100) 100 := by
    rw [frameProjection, glm_ortho_default, if_neg]
    norm_num
  intro hspec
  have h3 := hspec.2.2.1
  rw [hbr, glm_ortho_e11, glm_ortho_e31] at h3
  norm_num at h3

/-- C3 amended: for every framebuffer width and height with
`0 < height ≤ width` (aspect ratio `a = width/height ≥ 1`), the
orthographic projection computed each frame is symmetric about the origin
and maps `[-a, a]` horizontally and `[-1, 1]` vertically to clip space. -/
theorem frameProjection_ortho_spec {K : Type} [LinearOrderedField K]
    (w h : K) (hpos : 0 < h) (hle : h ≤ w) :
    orthoMapsSpec (w / h) (frameProjection (w / h)) :=
  orthoMapsSpec_of_one_le _ ((one_le_div hpos).mpr hle)

/-- C3 witness: at width 4, height 3 the hypotheses hold and the amended
statement evaluates. -/
theorem frameProjection_ortho_spec_witness :
    orthoMapsSpec ((4 : ℚ) / (3 : ℚ)) (frameProjection ((4 : ℚ) / (3 : ℚ))) :=
  frameProjection_ortho_spec (4 : ℚ) (3 : ℚ) (by norm_num) (by norm_num)

/-- C4: at `t = 0` the per-frame translation is the identity translated by
`(0, 1, 0)`; at `t = π` the offset is `(0, -1, 0)`; at `t = π/2` the
offset is `(0, 0, 0)` (the matrix is exactly the identity). -/
theorem frameTranslation_at_special_times :
    frameTranslation (Real.cos 0) = translationMatrix 0 1 0 ∧
    frameTranslation (Real.cos Real.pi) = translationMatrix 0 (-1) 0 ∧
    frameTranslation (Real.cos (Real.pi / 2)) = translationMatrix 0 0 0 := by
  refine ⟨?_, ?_, ?_⟩ <;>
    · rw [frameTranslation_eq]
      norm_num

/-- GLFW key constant `GLFW_KEY_ESCAPE`. -/
def GLFW_KEY_ESCAPE : Int := 256

/-- GLFW action constant `GLFW_PRESS`. -/
def GLFW_PRESS : Int := 1

/-- The one piece of window state the program reads or writes: the
should-close flag set by `glfwSetWindowShouldClose` and polled by
`glfwWindowShouldClose`. -/
structure Window where
  shouldClose : Bool
deriving DecidableEq

/-- `glfwSetWindowShouldClose(window, value)`. -/
def glfwSetWindowShouldClose (w : Window) (value : Bool) : Window :=
  { w with shouldClose := value }

/-- `key_callback` (main.c lines 44-48): requests window close when the
key is Escape with a press action, does nothing otherwise. -/
def key_callback (w : Window) (key _scancode action _mods : Int) : Window :=
  if key = GLFW_KEY_ESCAPE ∧ action = GLFW_PRESS then
    glfwSetWindowShouldClose w true
  else w

/-- An input event delivered by `glfwPollEvents`: a key event (handed to
the registered `key_callback`) or an OS close request (which sets the
window's should-close flag). -/
inductive Event where
  | key (key scancode action mods : Int)
  | osClose
deriving DecidableEq

/-- Dispatch of one polled event. -/
def processEvent (w : Window) : Event → Window
  | .key k sc a m => key_callback w k sc a m
  | .osClose => glfwSetWindowShouldClose w true

/-- `glfwPollEvents`: processes the pending events in order. -/
def glfwPollEvents (w : Window) (evs : List Event) : Window :=
  evs.foldl processEvent w

/-- Whether an event sets the should-close flag: an OS close request, or
an Escape press handled by `key_callback`. -/
def closesWindow : Event → Bool
  | .key k _ a _ => decide (k = GLFW_KEY_ESCAPE) && decide (a = GLFW_PRESS)
  | .osClose => true

/-- The render loop (main.c lines 288-311): `while
(!glfwWindowShouldClose(window))`, each iteration rendering and then
calling `glfwPollEvents`.  `events i` is the list of events pending at
iteration `i`; `fuel` bounds how many top-of-loop checks are observed.
Returns the number of iterations run and whether the loop was observed to
exit (reaching the teardown at lines 313-315). -/
def mainLoop (events : Nat → List Event) : Nat → Nat → Window → Nat × Bool
  | 0, _, _ => (0, false)
  | fuel + 1, i, w =>
    if w.shouldClose then (0, true)
    else
      let next := mainLoop events fuel (i + 1) (glfwPollEvents w (events i))
      (next.1 + 1, next.2)

lemma glfwPollEvents_shouldClose (w : Window) (evs : List Event) :
    (glfwPollEvents w evs).shouldClose = (w.shouldClose || evs.any closesWindow) := by
  induction evs generalizing w with
  | nil => simp [glfwPollEvents]
  | cons ev rest ih =>
    have hstep : (processEvent w ev).shouldClose = (w.shouldClose || closesWindow ev) := by
      cases ev with
      | key k sc a m =>
        by_cases hk : k = GLFW_KEY_ESCAPE ∧ a = GLFW_PRESS
        · simp [processEvent, key_callback, glfwSetWindowShouldClose, closesWindow,
            hk.1, hk.2]
        · have : (decide (k = GLFW_KEY_ESCAPE) && decide (a = GLFW_PRESS)) = false := by
            rcases not_and_or.mp hk with h | h <;> simp [h]
          simp [processEvent, key_callback, glfwSetWindowShouldClose, closesWindow,
            if_neg hk, this]
      | osClose => simp [processEvent, glfwSetWindowShouldClose, closesWindow]
    simp [glfwPollEvents, List.foldl_cons, List.any_cons] at *
    rw [ih, hstep, Bool.or_assoc]

/-- C7: the key callback requests window close exactly when the pressed
key is Escape with a press action; for every other key, action or
modifier combination it returns the window state unchanged. -/
theorem key_callback_escape_press_only (w : Window) (key scancode action mods : Int) :
    (key = GLFW_KEY_ESCAPE ∧ action = GLFW_PRESS →
      (key_callback w key scancode action mods).shouldClose = true) ∧
    (¬(key = GLFW_KEY_ESCAPE ∧ action = GLFW_PRESS) →
      key_callback w key scancode action mods = w) := by
  constructor
  · intro h
    simp [key_callback, glfwSetWindowShouldClose, if_pos h]
  · intro h
    simp [key_callback, if_neg h]

/-- C7 witness: an Escape press sets the flag; the `A` key (code 65)
pressed leaves the window untouched. -/
theorem key_callback_escape_press_only_witness :
    (key_callback { shouldClose := false } 256 0 1 0).shouldClose = true ∧
    key_callback { shouldClose := false } 65 0 1 0 = { shouldClose := false } :=
  ⟨(key_callback_escape_press_only { shouldClose := false } 256 0 1 0).1 (by decide),
   (key_callback_escape_press_only { shouldClose := false } 65 0 1 0).2 (by decide)⟩

lemma mainLoop_stops (events : Nat → List Event) (fuel i : Nat) :
    mainLoop events (fuel + 1) i { shouldClose := true } = (0, true) := by
  simp [mainLoop]

lemma glfwPollEvents_eq (w : Window) (evs : List Event) :
    glfwPollEvents w evs = { shouldClose := w.shouldClose || evs.any closesWindow } := by
  cases hp : glfwPollEvents w evs with
  | mk sc =>
    have hsc := glfwPollEvents_shouldClose w evs
    rw [hp] at hsc
    simpa using hsc

lemma mainLoop_step (events : Nat → List Event) (fuel i : Nat) (w : Window)
    (hw : w.shouldClose = false) :
    mainLoop events (fuel + 1) i w =
      ((mainLoop events fuel (i + 1) (glfwPollEvents w (events i))).1 + 1,
       (mainLoop events fuel (i + 1) (glfwPollEvents w (events i))).2) := by
  simp [mainLoop, hw]

lemma mainLoop_exits (events : Nat → List Event) :
    ∀ (n fuel i : Nat),
      (∀ j, j < n → (events (i + j)).any closesWindow = false) →
      (events (i + n)).any closesWindow = true →
      n + 2 ≤ fuel →
      mainLoop events fuel i { shouldClose := false } = (n + 1, true) := by
  intro n
  induction n with
  | zero =>
    intro fuel i _ hclose hfuel
    match fuel, hfuel with
    | f + 2, _ =>
      simp only [Nat.add_zero] at hclose
      rw [show f + 2 = f + 1 + 1 from rfl,
        mainLoop_step events (f + 1) i { shouldClose := false } rfl,
        glfwPollEvents_eq]
      simp only [hclose, Bool.false_or]
      rw [mainLoop_stops]
  | succ m ih =>
    intro fuel i hbefore hclose hfuel
    match fuel, hfuel with
    | f + 1, hf =>
      have h0 : (events i).any closesWindow = false := by
        have := hbefore 0 (Nat.succ_pos m)
        simpa using this
      have hrec : mainLoop events f (i + 1) { shouldClose := false } = (m + 1, true) := by
        apply ih f (i + 1)
        · intro j hj
          have := hbefore (j + 1) (Nat.succ_lt_succ hj)
          rwa [show i + (j + 1) = i + 1 + j by omega] at this
        · rwa [show i + 1 + m = i + (m + 1) by omega]
        · omega
      rw [mainLoop_step events f i { shouldClose := false } rfl, glfwPollEvents_eq]
      simp only [h0, Bool.false_or]
      rw [hrec]

/-- C8: the render loop iterates exactly while the window's should-close
flag is unset: starting from an open window, if the close signal (escape
press or OS close request) first arrives among the events polled at
iteration `n` and enough checks are observed, the loop runs exactly the
iterations `0..n` (that is, `n + 1` of them) and then exits to teardown;
and from a window whose flag is already set, the loop runs no iteration
at all and proceeds directly to teardown. -/
theorem mainLoop_runs_until_close (events : Nat → List Event) (n fuel : Nat)
    (hbefore : ∀ j, j < n → (events j).any closesWindow = false)
    (hclose : (events n).any closesWindow = true)
    (hfuel : n + 2 ≤ fuel) :
    mainLoop events fuel 0 { shouldClose := false } = (n + 1, true) ∧
    mainLoop events fuel 0 { shouldClose := true } = (0, true) := by
  constructor
  · apply mainLoop_exits events n fuel 0
    · intro j hj
      simpa using hbefore j hj
    · simpa using hclose
    · exact hfuel
  · match fuel, hfuel with
    | f + 1, _ => exact mainLoop_stops events f 0

/-- C8 witness: with the close signal arriving at iteration 1 and fuel 4,
the loop runs exactly 2 iterations and exits; with the flag already set
it runs none. -/
theorem mainLoop_runs_until_close_witness :
    mainLoop (fun j => if j = 1 then [Event.key 256 0 1 0] else []) 4 0
      { shouldClose := false } = (1 + 1, true) ∧
    mainLoop (fun j => if j = 1 then [Event.key 256 0 1 0] else []) 4 0
      { shouldClose := true } = (0, true) :=
  mainLoop_runs_until_close (fun j => if j = 1 then [Event.key 256 0 1 0] else []) 1 4
    (by intro j hj
        have : j = 0 := by omega
        subst this
        decide)
    (by decide)
    (by omega)

/-- OpenGL constants used by `get_texture`. -/
def GL_TEXTURE_2D : Nat := 0x0DE1

def GL_TEXTURE_WRAP_S : Nat := 0x2802

def GL_TEXTURE_WRAP_T : Nat := 0x2803

def GL_TEXTURE_MIN_FILTER : Nat := 0x2801

def GL_TEXTURE_MAG_FILTER : Nat := 0x2800

def GL_REPEAT : Nat := 0x2901

def GL_NEAREST : Nat := 0x2600

/-- The diagnostic messages the program can print, one constructor per
`fprintf`/`printf`/`perror` call site in main.c (the formatted runtime
contents are abstracted; what matters is which message is emitted and on
which stream). -/
inductive Msg where
  | glfwInitFailed
  | windowCreateFailed
  | glewErrorString
  | glewStatus
  | vertexShaderErrorHeader
  | vertexShaderInfoLog
  | fragmentShaderErrorHeader
  | fragmentShaderInfoLog
  | programInfoLog
  | pngReadError
  | imageAllocError
  | pngDecodeError
deriving DecidableEq

/-- The GL calls `get_texture` performs, in order (arguments of
`glTexImage2D` other than target, level, the image dimensions and border
are fixed to `GL_RGBA`/`GL_UNSIGNED_BYTE` and elided). -/
inductive GLCall where
  | genTextures
  | bindTexture (target handle : Nat)
  | texParameteri (target pname param : Nat)
  | texImage2D (target level width height border : Nat)
  | generateMipmap (target : Nat)
deriving DecidableEq

/-- Outcomes of the external libpng/malloc calls inside `get_texture`:
whether `png_image_begin_read_from_file` succeeded, whether `malloc`
returned non-NULL, whether `png_image_finish_read` succeeded, and the
decoded image dimensions. -/
structure TexEnv where
  pngReadOk : Bool
  allocOk : Bool
  pngFinishOk : Bool
  imageWidth : Nat
  imageHeight : Nat
deriving DecidableEq

/-- What a call to `get_texture` does: the GL calls it makes, the
messages it prints to standard error, and the value it returns. -/
structure TexResult where
  calls : List GLCall
  stderr : List Msg
  ret : Nat
deriving DecidableEq

/-- `get_texture` (main.c lines 56-113): generates and binds a texture
handle, sets four texture parameters, reads and decodes the PNG (each
failure only printing to stderr), uploads the pixel buffer with
`glTexImage2D`, generates mipmaps, and returns the handle from
`glGenTextures`.  `texture` is the handle `glGenTextures` produced. -/
def get_texture (e : TexEnv) (texture : Nat) : TexResult :=
  { calls :=
      [GLCall.genTextures,
       GLCall.bindTexture GL_TEXTURE_2D texture,
       GLCall.texParameteri GL_TEXTURE_2D GL_TEXTURE_WRAP_S GL_REPEAT,
       GLCall.texParameteri GL_TEXTURE_2D GL_TEXTURE_WRAP_T GL_REPEAT,
       GLCall.texParameteri GL_TEXTURE_2D GL_TEXTURE_MIN_FILTER GL_NEAREST,
       GLCall.texParameteri GL_TEXTURE_2D GL_TEXTURE_MAG_FILTER GL_NEAREST,
       GLCall.texImage2D GL_TEXTURE_2D 0 e.imageWidth e.imageHeight 0,
       GLCall.generateMipmap GL_TEXTURE_2D],
    stderr :=
      (if e.pngReadOk then [] else [Msg.pngReadError])
        ++ (if e.allocOk then [] else [Msg.imageAllocError])
        ++ (if e.pngFinishOk then [] else [Msg.pngDecodeError]),
    ret := texture }

/-- C6: for every outcome of the PNG read, the allocation and the decode,
`get_texture` returns the handle produced by `glGenTextures`, still
uploads the pixel buffer and generates mipmaps, and its return value is
the same whether or not loading succeeded, so the caller cannot observe
failure from it. -/
theorem get_texture_ignores_failures (e : TexEnv) (texture : Nat) :
    (get_texture e texture).ret = texture ∧
    GLCall.texImage2D GL_TEXTURE_2D 0 e.imageWidth e.imageHeight 0
      ∈ (get_texture e texture).calls ∧
    GLCall.generateMipmap GL_TEXTURE_2D ∈ (get_texture e texture).calls ∧
    ∀ e' : TexEnv, (get_texture e' texture).ret = (get_texture e texture).ret := by
  refine ⟨rfl, ?_, ?_, fun e' => rfl⟩ <;> simp [get_texture]

/-- One vertex of the hard-coded triangle (main.c lines 13-22): position
`(x, y)` and color `(r, g, b)`.  The float literals `-0.6f`, `-0.4f`,
`0.6f` are the exact decimal values written in the source, as rationals. -/
structure Vertex where
  x : ℚ
  y : ℚ
  r : ℚ
  g : ℚ
  b : ℚ
deriving DecidableEq

/-- The 3 hard-coded vertices (main.c lines 17-22). -/
def vertices : List Vertex :=
  [{ x := -(3 / 5), y := -(2 / 5), r := 1, g := 0, b := 0 },
   { x := 3 / 5, y := -(2 / 5), r := 0, g := 1, b := 0 },
   { x := 0, y := 3 / 5, r := 0, g := 0, b := 1 }]

/-- The 3 hard-coded texture coordinate pairs (main.c lines 27-31). -/
def texCoords : List ℚ :=
  [0, 0, 1, 0, 1 / 2, 1]

/-- The flat float contents of the `vertices` array as uploaded by
`glBufferData(GL_ARRAY_BUFFER, sizeof(vertices), vertices, ...)`. -/
def vertexFloats (vs : List Vertex) : List ℚ :=
  (vs.map fun v => [v.x, v.y, v.r, v.g, v.b]).flatten

/-- The GL buffer-object state the program touches: which buffer object
is bound to `GL_ARRAY_BUFFER` and the data store of each buffer object. -/
structure GLBuffers where
  boundArrayBuffer : Nat
  bufferStore : Nat → List ℚ

/-- `glBindBuffer(GL_ARRAY_BUFFER, buf)`. -/
def glBindBuffer (g : GLBuffers) (buf : Nat) : GLBuffers :=
  { g with boundArrayBuffer := buf }

/-- `glBufferData(GL_ARRAY_BUFFER, size, data, GL_STATIC_DRAW)`: replaces
the data store of the currently bound buffer object with `data`. -/
def glBufferData (g : GLBuffers) (data : List ℚ) : GLBuffers :=
  { g with
    bufferStore := fun b => if b = g.boundArrayBuffer then data else g.bufferStore b }

/-- Outcomes of the external calls `main` makes during setup: whether
`glfwInit`, `glfwCreateWindow`, `glewInit`, the two shader compiles and
the program link succeeded, and the outcomes inside `get_texture`. -/
structure Env where
  glfwInitOk : Bool
  windowOk : Bool
  glewOk : Bool
  vertexShaderOk : Bool
  fragmentShaderOk : Bool
  linkOk : Bool
  tex : TexEnv
deriving DecidableEq

/-- The environment in which every setup step succeeds. -/
def envAllOk : Env :=
  { glfwInitOk := true, windowOk := true, glewOk := true,
    vertexShaderOk := true, fragmentShaderOk := true, linkOk := true,
    tex := { pngReadOk := true, allocOk := true, pngFinishOk := true,
             imageWidth := 64, imageHeight := 64 } }

/-- Everything observable about one run of `main`: the messages printed
to each stream, the final GL buffer state, the handles involved, whether
the render loop was reached, how many iterations it ran, and the exit
code (`none` while the loop is still running). -/
structure ProgResult where
  stderr : List Msg
  stdout : List Msg
  buffers : GLBuffers
  vertexBufferHandle : Nat
  vboHandle : Nat
  textureHandle : Nat
  reachedLoop : Bool
  iterations : Nat
  exitCode : Option Int

/-- `main` (main.c lines 115-316), transcribed in source order.  Every
failure branch only appends a message (`perror` and `fprintf(stderr, ...)`
to stderr, `printf` to stdout) and falls through; no branch returns,
aborts or skips later work.  Buffer object handles are numbered in
creation order: `VBO` is 2 (line 162), `vertex_buffer` is 3 (line 256),
the texture handle is 4 (line 273).  `vertex_buffer` receives the
`vertices` array (line 258) and `VBO` the `texCoords` array (line 281).
After the loop the program destroys the window, terminates glfw and
returns 0 (lines 313-315). -/
def mainRun (e : Env) (events : Nat → List Event) (fuel : Nat) : ProgResult :=
  let stderrGlfw := if e.glfwInitOk then [] else [Msg.glfwInitFailed]
  let window : Window := { shouldClose := false }
  let stderrWindow := if e.windowOk then [] else [Msg.windowCreateFailed]
  let stderrGlew := if e.glewOk then [] else [Msg.glewErrorString]
  let stdoutVsh := if e.vertexShaderOk then [] else [Msg.vertexShaderErrorHeader]
  let stderrVsh := if e.vertexShaderOk then [] else [Msg.vertexShaderInfoLog]
  let stdoutFsh := if e.fragmentShaderOk then [] else [Msg.fragmentShaderErrorHeader]
  let stderrFsh := if e.fragmentShaderOk then [] else [Msg.fragmentShaderInfoLog]
  let stderrLink := if e.linkOk then [] else [Msg.programInfoLog]
  let g0 : GLBuffers := { boundArrayBuffer := 0, bufferStore := fun _ => [] }
  let g1 := glBufferData (glBindBuffer g0 3) (vertexFloats vertices)
  let texResult := get_texture e.tex 4
  let g2 := glBufferData (glBindBuffer g1 2) texCoords
  let loopOut := mainLoop events fuel 0 window
  { stderr := stderrGlfw ++ stderrWindow ++ stderrGlew ++ stderrVsh ++ stderrFsh
      ++ stderrLink ++ texResult.stderr,
    stdout := [Msg.glewStatus] ++ stdoutVsh ++ stdoutFsh,
    buffers := g2,
    vertexBufferHandle := 3,
    vboHandle := 2,
    textureHandle := texResult.ret,
    reachedLoop := true,
    iterations := loopOut.1,
    exitCode := if loopOut.2 then some 0 else none }

/-- C5: for every setup-failure category (glfw init, window creation,
GLEW loading, vertex/fragment shader compile, program link, PNG read,
allocation, PNG decode), when the step fails the program prints a message
to standard error (for shader failures via `perror` of the info log) and
continues unconditionally: the render loop is still reached, and the
iteration count and exit status are identical to those of a run in which
every setup step succeeded. -/
theorem setup_failures_print_and_continue (e : Env) (events : Nat → List Event)
    (fuel : Nat) :
    (e.glfwInitOk = false → Msg.glfwInitFailed ∈ (mainRun e events fuel).stderr) ∧
    (e.windowOk = false → Msg.windowCreateFailed ∈ (mainRun e events fuel).stderr) ∧
    (e.glewOk = false → Msg.glewErrorString ∈ (mainRun e events fuel).stderr) ∧
    (e.vertexShaderOk = false →
      Msg.vertexShaderInfoLog ∈ (mainRun e events fuel).stderr) ∧
    (e.fragmentShaderOk = false →
      Msg.fragmentShaderInfoLog ∈ (mainRun e events fuel).stderr) ∧
    (e.linkOk = false → Msg.programInfoLog ∈ (mainRun e events fuel).stderr) ∧
    (e.tex.pngReadOk = false → Msg.pngReadError ∈ (mainRun e events fuel).stderr) ∧
    (e.tex.allocOk = false → Msg.imageAllocError ∈ (mainRun e events fuel).stderr) ∧
    (e.tex.pngFinishOk = false → Msg.pngDecodeError ∈ (mainRun e events fuel).stderr) ∧
    (mainRun e events fuel).reachedLoop = true ∧
    (mainRun e events fuel).iterations = (mainRun envAllOk events fuel).iterations ∧
    (mainRun e events fuel).exitCode = (mainRun envAllOk events fuel).exitCode := by
  refine ⟨?_, ?_, ?_, ?_, ?_, ?_, ?_, ?_, ?_, rfl, rfl, rfl⟩ <;>
    · intro h
      simp [mainRun, get_texture, h]

/-- C5 witness: in a run where every setup step fails, the glfw-init
message is on stderr and the loop is still reached. -/
theorem setup_failures_print_and_continue_witness :
    Msg.glfwInitFailed ∈
      (mainRun
        { glfwInitOk := false, windowOk := false, glewOk := false,
          vertexShaderOk := false, fragmentShaderOk := false, linkOk := false,
          tex := { pngReadOk := false, allocOk := false, pngFinishOk := false,
                   imageWidth := 0, imageHeight := 0 } }
        (fun _ => [Event.osClose]) 3).stderr ∧
    (mainRun
        { glfwInitOk := false, windowOk := false, glewOk := false,
          vertexShaderOk := false, fragmentShaderOk := false, linkOk := false,
          tex := { pngReadOk := false, allocOk := false, pngFinishOk := false,
                   imageWidth := 0, imageHeight := 0 } }
        (fun _ => [Event.osClose]) 3).reachedLoop = true :=
  ⟨(setup_failures_print_and_continue
      { glfwInitOk := false, windowOk := false, glewOk := false,
        vertexShaderOk := false, fragmentShaderOk := false, linkOk := false,
        tex := { pngReadOk := false, allocOk := false, pngFinishOk := false,
                 imageWidth := 0, imageHeight := 0 } }
      (fun _ => [Event.osClose]) 3).1 rfl,
   (setup_failures_print_and_continue
      { glfwInitOk := false, windowOk := false, glewOk := false,
        vertexShaderOk := false, fragmentShaderOk := false, linkOk := false,
        tex := { pngReadOk := false, allocOk := false, pngFinishOk := false,
                 imageWidth := 0, imageHeight := 0 } }
      (fun _ => [Event.osClose]) 3).2.2.2.2.2.2.2.2.2.1⟩

/-- C9: in every run, the data store of the vertex buffer object holds
exactly the flat contents of the 3 hard-coded vertices and the data store
of `VBO` exactly the 3 hard-coded texture-coordinate pairs — the
compile-time values round-trip unchanged through the upload — and those
values are the literals written at main.c lines 17-22 and 27-31. -/
theorem vertex_data_roundtrips (e : Env) (events : Nat → List Event) (fuel : Nat) :
    (mainRun e events fuel).buffers.bufferStore
        (mainRun e events fuel).vertexBufferHandle = vertexFloats vertices ∧
    (mainRun e events fuel).buffers.bufferStore
        (mainRun e events fuel).vboHandle = texCoords ∧
    vertexFloats vertices =
      [-(3 / 5), -(2 / 5), 1, 0, 0, 3 / 5, -(2 / 5), 0, 1, 0, 0, 3 / 5, 0, 0, 1] ∧
    texCoords = [0, 0, 1, 0, 1 / 2, 1] := by
  refine ⟨?_, ?_, rfl, rfl⟩ <;>
    simp [mainRun, glBufferData, glBindBuffer]

/-- C10: whenever `main` returns, it returns exit code 0, whatever the
outcomes of the setup steps and whatever events arrive. -/
theorem main_returns_zero (e : Env) (events : Nat → List Event) (fuel : Nat)
    (n : Int) (hret : (mainRun e events fuel).exitCode = some n) : n = 0 := by
  by_cases hdone : (mainLoop events fuel 0 { shouldClose := false }).2
  · simp [mainRun, hdone] at hret
    omega
  · simp [mainRun, hdone] at hret

/-- C10 witness: a run whose loop exits yields exit code 0. -/
theorem main_returns_zero_witness :
    (mainRun envAllOk (fun _ => [Event.osClose]) 3).exitCode = some 0 ∧
    (0 : Int) = 0 :=
  ⟨by decide,
   main_returns_zero envAllOk (fun _ => [Event.osClose]) 3 0 (by decide)⟩
